import Mathlib

/-!
Verification development for the TwoGlasses camera-upload repository
(src/Camera/api.py).  The server keeps one global `ContinuousVideoWriter`
(a rotating video file sink guarded by a non-reentrant `threading.Lock`)
and an HTTP endpoint `upload_video` that decodes an uploaded video,
runs a detector on every frame, draws the detections, samples every
30th frame into the JSON response, and forwards every annotated frame
to the writer.

Shallow embedding decisions:
- Wall-clock instants are rationals (seconds since an epoch); the
  `datetime.now()` reads scattered through the source are passed in as
  explicit arguments.
- The non-reentrant `threading.Lock` is a boolean `lock_held` flag on
  the writer state; acquiring a held lock deadlocks the (single)
  thread, which is modelled by returning `none` (the operation never
  completes, no state is ever produced).
- `cv2.VideoWriter` is a `Sink`: constructing it never raises; it is
  `opened` exactly when the environment can open the target path
  (modelled by the `env : String → Bool` argument), and `write` on a
  sink that is not opened silently drops the frame (cv2 semantics:
  neither the constructor nor `write` raises on an unopened writer).
- `cv2.VideoCapture` on bytes that are not a readable video container
  raises nothing and yields no frames; `read()` returns false at once.
- A `Frame` is its pixel geometry, an opaque content tag and the list
  of drawing operations performed on it; `cv2.resize` is a direct
  stretch to the requested geometry.
- The detector (`model(frame)`, external collaborator) is supplied as
  part of the input: each uploaded frame carries either its detection
  list or the error the detector raised on it.
- `cv2.getTextSize` is an uninterpreted function `LS` from the label
  text to a pixel extent, passed as a parameter.
- String formatting that no claim depends on (the `%.2f` confidence
  format, the `%Y%m%d_%H%M%S` timestamp format) is modelled by exact
  renderings at the same resolution: the timestamp rendering depends
  on (and only on) the floor of the clock in seconds, matching the
  second resolution of the source format.
-/

namespace Camera

/-- One drawing primitive applied to a frame: `cv2.rectangle` (with a
flag for a filled rectangle, thickness -1 in the source) or
`cv2.putText`. -/
inductive DrawOp where
  | rect (x1 y1 x2 y2 : Int) (filled : Bool)
  | text (x y : Int) (label : String)
deriving DecidableEq

/-- A decoded raster frame: pixel geometry, an opaque content tag and
the annotations drawn onto it so far. -/
structure Frame where
  width : Nat
  height : Nat
  pixels : Nat
  ops : List DrawOp
deriving DecidableEq

/-- cv2.resize to a (width, height) target: direct stretch. -/
def resize (f : Frame) (size : Nat × Nat) : Frame :=
  { f with width := size.1, height := size.2 }

/-- One detection as produced by the detector: `box.xyxy` coordinates
(frame-relative rationals standing for the floats), `box.conf` and the
class name `model.names[box.cls]`. -/
structure Det where
  x1 : ℚ
  y1 : ℚ
  x2 : ℚ
  y2 : ℚ
  conf : ℚ
  cls : String
deriving DecidableEq

/-- Python `int()` on a rational: truncation toward zero. -/
def truncInt (q : ℚ) : Int :=
  if 0 ≤ q then ⌊q⌋ else -⌊-q⌋

/-- Rendering of a confidence value in the label text (the source uses
a two-decimal float format; the exact rendering is immaterial to every
claim, so an exact rational rendering is used). -/
def conf_str (q : ℚ) : String :=
  toString q.num ++ "/" ++ toString q.den

/-- The label text drawn above a detection box. -/
def det_label (d : Det) : String :=
  d.cls ++ ": " ++ conf_str d.conf

/-- Drawing of one detection onto a frame, exactly the three cv2 calls
of the upload loop: the detection rectangle at the truncated raw
coordinates, the filled label background sized by `cv2.getTextSize`
(the uninterpreted `LS`), and the label text.  No clamping of any
coordinate occurs anywhere in the source. -/
def draw_detection (LS : String → Int × Int) (f : Frame) (d : Det) : Frame :=
  let x1 := truncInt d.x1
  let y1 := truncInt d.y1
  let x2 := truncInt d.x2
  let y2 := truncInt d.y2
  let label := det_label d
  let ls := LS label
  { f with ops := f.ops ++
      [DrawOp.rect x1 y1 x2 y2 false,
       DrawOp.rect x1 (y1 - ls.2 - 10) (x1 + ls.1) y1 true,
       DrawOp.text x1 (y1 - 5) label] }

/-- The `cv2.VideoWriter` handle: whether the sink could actually be
opened for the target path, and the frames it has persisted.
Constructing it never raises, and writing to an unopened sink silently
drops the frame. -/
structure Sink where
  opened : Bool
  frames : List Frame
deriving DecidableEq

/-- The state of the global `ContinuousVideoWriter` instance, field
for field as set up in `__init__`.  The `threading.Lock` is the
`lock_held` flag. -/
structure ContinuousVideoWriter where
  output_dir : String
  writer : Option Sink
  current_file : Option String
  lock_held : Bool
  fps : Nat
  frame_size : Nat × Nat
  max_file_duration_hours : ℚ
  file_start_time : Option ℚ
  frame_count : Nat
deriving DecidableEq

/-- `ContinuousVideoWriter.__init__(output_dir, max_file_duration_hours)`. -/
def mkWriter (dir : String) (max_hours : ℚ) : ContinuousVideoWriter :=
  { output_dir := dir, writer := none, current_file := none,
    lock_held := false, fps := 30, frame_size := (640, 480),
    max_file_duration_hours := max_hours, file_start_time := none,
    frame_count := 0 }

/-- The module-level `video_writer = ContinuousVideoWriter()` with the
default arguments. -/
def initWriter : ContinuousVideoWriter := mkWriter "./recordings" 1

/-- Acquiring the non-reentrant lock: deadlock (`none`) if it is
already held by this thread, else the state with the lock held. -/
def lockAcquire (s : ContinuousVideoWriter) : Option ContinuousVideoWriter :=
  if s.lock_held then none else some { s with lock_held := true }

/-- Releasing the lock at the end of a `with self.lock` block. -/
def lockRelease (s : ContinuousVideoWriter) : ContinuousVideoWriter :=
  { s with lock_held := false }

/-- `get_new_filename`: `os.path.join(output_dir,
"continuous_feed_<now:%Y%m%d_%H%M%S>.mp4")`.  The strftime call is a
second-resolution rendering of the clock, modelled as an exact
rendering of `⌊now⌋` (seconds). -/
def get_new_filename (dir : String) (now : ℚ) : String :=
  dir ++ "/continuous_feed_" ++ toString ⌊now⌋ ++ ".mp4"

/-- `should_rotate_file`: true when no session has ever started, or
when the elapsed hours since `file_start_time` reach
`max_file_duration_hours`. -/
def should_rotate_file (now : ℚ) (s : ContinuousVideoWriter) : Bool :=
  match s.file_start_time with
  | none => true
  | some t0 =>
      if (now - t0) / 3600 ≥ s.max_file_duration_hours then true else false

/-- `start_new_file`: under `with self.lock`, release the previous
sink if any, pick the new file name from the wall clock, reset
`file_start_time` and `frame_count`, and construct the new
`cv2.VideoWriter` (opened exactly when the environment can open the
path).  Called re-entrantly from `write_frame` it deadlocks, because
the lock is already held. -/
def start_new_file (env : String → Bool) (now : ℚ)
    (s : ContinuousVideoWriter) : Option ContinuousVideoWriter :=
  match lockAcquire s with
  | none => none
  | some s1 =>
      let name := get_new_filename s1.output_dir now
      some (lockRelease
        { s1 with current_file := some name,
                  file_start_time := some now,
                  frame_count := 0,
                  writer := some { opened := env name, frames := [] } })

/-- Normalization step of `write_frame`: a frame whose
`shape[:2][::-1]` differs from `frame_size` is resized to
`frame_size`, others pass through unchanged. -/
def normalize_frame (size : Nat × Nat) (f : Frame) : Frame :=
  if (f.width, f.height) ≠ size then resize f size else f

/-- `write_frame`: under `with self.lock`, start a new file if no
session is open or the rotation predicate holds (which deadlocks,
since `start_new_file` re-acquires the held non-reentrant lock), then
resize the frame if needed, write it to the sink (silently dropped if
the sink is not opened) and increment `frame_count`. -/
def write_frame (env : String → Bool) (now : ℚ)
    (s : ContinuousVideoWriter) (frame : Frame) : Option ContinuousVideoWriter :=
  match lockAcquire s with
  | none => none
  | some s1 =>
      match (if s1.writer.isNone || should_rotate_file now s1 then
               start_new_file env now s1 else some s1) with
      | none => none
      | some s2 =>
          match s2.writer with
          | none => none
          | some sk =>
              let fr := normalize_frame s2.frame_size frame
              some (lockRelease
                { s2 with
                    writer := some { sk with
                      frames := if sk.opened then sk.frames ++ [fr] else sk.frames },
                    frame_count := s2.frame_count + 1 })

/-- `close`: under `with self.lock`, release the sink and clear the
writer handle if one is open; all other fields are untouched. -/
def close (s : ContinuousVideoWriter) : Option ContinuousVideoWriter :=
  match lockAcquire s with
  | none => none
  | some s1 =>
      match s1.writer with
      | some _ => some (lockRelease { s1 with writer := none })
      | none => some (lockRelease s1)

/-- The frames persisted by the current sink of a writer. -/
def written_frames (s : ContinuousVideoWriter) : List Frame :=
  match s.writer with
  | none => []
  | some sk => sk.frames

/-- Snapshot returned by the `/recording/status` endpoint. -/
structure StatusSnapshot where
  current_file : Option String
  frame_count : Nat
  start_time : Option ℚ
  is_recording : Bool
deriving DecidableEq

/-- `recording_status`: under `with video_writer.lock`, a read-only
snapshot of the writer fields; `is_recording` is `writer is not
None`. -/
def recording_status (s : ContinuousVideoWriter) : Option StatusSnapshot :=
  match lockAcquire s with
  | none => none
  | some s1 =>
      some { current_file := s1.current_file, frame_count := s1.frame_count,
             start_time := s1.file_start_time,
             is_recording := s1.writer.isSome }

instance {ε α : Type} [DecidableEq ε] [DecidableEq α] : DecidableEq (Except ε α) :=
  fun a b =>
    match a, b with
    | Except.error e, Except.error f =>
        if h : e = f then isTrue (by rw [h])
        else isFalse (by intro c; injection c; contradiction)
    | Except.ok x, Except.ok y =>
        if h : x = y then isTrue (by rw [h])
        else isFalse (by intro c; injection c; contradiction)
    | Except.error _, Except.ok _ => isFalse (by intro c; exact Except.noConfusion c)
    | Except.ok _, Except.error _ => isFalse (by intro c; exact Except.noConfusion c)

/-- One frame of an uploaded video together with the detector's
verdict on it: the list of detections, or the message of the exception
the external detector raised on this frame. -/
structure FrameInput where
  frame : Frame
  det : Except String (List Det)
deriving DecidableEq

/-- The uploaded media bytes as the decode boundary sees them: either
a readable video container with its frames, or bytes that
`cv2.VideoCapture` cannot open as a container (in which case cv2
raises nothing and `read()` yields no frames at all). -/
inductive Media where
  | readable (frames : List FrameInput)
  | unreadable
deriving DecidableEq

/-- The frame sequence the `while cap.read()` loop of `upload_video`
iterates over. -/
def decode_frames : Media → List FrameInput
  | Media.readable fs => fs
  | Media.unreadable => []

/-- One entry of the response's detection list, exactly the dict built
by the upload loop (the `datetime.now().isoformat()` timestamp is the
clock instant). -/
structure DetRecord where
  frame : Nat
  timestamp : ℚ
  cls : String
  confidence : ℚ
  bbox : ℚ × ℚ × ℚ × ℚ
deriving DecidableEq

/-- The detection dict appended for a sampled frame. -/
def mk_record (now : ℚ) (cnt : Nat) (d : Det) : DetRecord :=
  { frame := cnt, timestamp := now, cls := d.cls, confidence := d.conf,
    bbox := (d.x1, d.y1, d.x2, d.y2) }

/-- The inner `for box in boxes` loop of `upload_video` for one frame:
each detection is drawn onto the annotated frame (rectangle, label
background, label text), and — inside the same iteration — appended to
the response's detection list when the 1-based frame counter is
divisible by 30. -/
def process_boxes (LS : String → Int × Int) (now : ℚ) (cnt : Nat)
    (annotated : Frame) (dets : List Det) (recs : List DetRecord) :
    Frame × List DetRecord :=
  match dets with
  | [] => (annotated, recs)
  | d :: ds =>
      let annotated' := draw_detection LS annotated d
      let recs' := if cnt % 30 == 0 then recs ++ [mk_record now cnt d] else recs
      process_boxes LS now cnt annotated' ds recs'

/-- Per-request mutable state of the upload loop: the global writer,
the local `frame_count` and the local `detections` list. -/
structure UploadLoopState where
  vw : ContinuousVideoWriter
  frame_count : Nat
  detections : List DetRecord
deriving DecidableEq

/-- How the `while True` loop of `upload_video` ends: normally, or by
the detector raising (the exception aborts the loop and is caught by
the surrounding `except`). -/
inductive LoopResult where
  | ok (st : UploadLoopState)
  | detectorError (msg : String) (st : UploadLoopState)
deriving DecidableEq

/-- The `while True: cap.read()` loop of `upload_video`.  For each
frame, 1-indexed by the incremented local counter: copy the frame, run
the detector (a raised detector error aborts the whole request at this
point, before anything of this frame is drawn or written), draw every
detection and sample the frame into the response if its index is
divisible by 30, then forward the annotated copy to the global
writer's `write_frame`.  A deadlock inside `write_frame` (`none`)
means the request never completes. -/
def upload_loop (LS : String → Int × Int) (env : String → Bool) (now : ℚ) :
    List FrameInput → UploadLoopState → Option LoopResult
  | [], st => some (LoopResult.ok st)
  | fi :: rest, st =>
      let cnt := st.frame_count + 1
      match fi.det with
      | Except.error msg =>
          some (LoopResult.detectorError msg { st with frame_count := cnt })
      | Except.ok dets =>
          let fr := process_boxes LS now cnt fi.frame dets st.detections
          match write_frame env now st.vw fr.1 with
          | none => none
          | some vw' =>
              upload_loop LS env now rest
                { vw := vw', frame_count := cnt, detections := fr.2 }

/-- The JSON body of a successful `/upload` response. -/
structure UploadOk where
  camera_id : String
  sequence : String
  processed_frames : Nat
  detections : List DetRecord
  detection_count : Nat
deriving DecidableEq

/-- The `/upload` responses: 200 with the result JSON, 400 with an
error message for a missing media field, or 500 with `str(e)` from the
surrounding `except`. -/
inductive UploadResponse where
  | ok (r : UploadOk)
  | clientError (msg : String)
  | serverError (msg : String)
deriving DecidableEq

/-- The HTTP status code attached to each response shape. -/
def status_of : UploadResponse → Nat
  | UploadResponse.ok _ => 200
  | UploadResponse.clientError _ => 400
  | UploadResponse.serverError _ => 500

/-- The `/upload` endpoint `upload_video`: 400 when the multipart
field named video is absent; otherwise the uploaded bytes are decoded
(an unreadable container yields zero frames, cv2 raises nothing) and
the frame loop runs against the shared global writer.  A detector
exception is caught by the outer `except` and mapped to 500; the
writer state as already mutated persists, since the writer is global.
`none` means the request never returns (deadlock in `write_frame`). -/
def upload_video (LS : String → Int × Int) (env : String → Bool) (now : ℚ)
    (media : Option Media) (camera_id sequence : String)
    (vw : ContinuousVideoWriter) :
    Option (UploadResponse × ContinuousVideoWriter) :=
  match media with
  | none => some (UploadResponse.clientError "No video file provided", vw)
  | some m =>
      match upload_loop LS env now (decode_frames m)
              { vw := vw, frame_count := 0, detections := [] } with
      | none => none
      | some (LoopResult.detectorError msg st) =>
          some (UploadResponse.serverError msg, st.vw)
      | some (LoopResult.ok st) =>
          some (UploadResponse.ok
            { camera_id := camera_id, sequence := sequence,
              processed_frames := st.frame_count,
              detections := st.detections,
              detection_count := st.detections.length }, st.vw)

/-! Concrete fixtures used by witnesses and counterexamples. -/

/-- An environment in which every output path can be opened. -/
def envOK : String → Bool := fun _ => true

/-- An environment in which no output path can be opened (invalid
directory, full disk). -/
def envBad : String → Bool := fun _ => false

/-- A text-extent function standing for `cv2.getTextSize`. -/
def LS0 : String → Int × Int := fun _ => (16, 10)

/-- A frame already at the target geometry. -/
def f0 : Frame := { width := 640, height := 480, pixels := 0, ops := [] }

/-- A frame whose geometry differs from the target. -/
def fSmall : Frame := { width := 100, height := 120, pixels := 1, ops := [] }

/-- An ordinary detection. -/
def d0 : Det := { x1 := 1, y1 := 2, x2 := 3, y2 := 4, conf := 1, cls := "person" }

/-- A degenerate detection: x1 > x2 and y1 > y2. -/
def dBad : Det := { x1 := 10, y1 := 7, x2 := 5, y2 := 2, conf := 2, cls := "cat" }

/-- A writer with an open session: the fresh writer after one
successful external `start_new_file` at instant 0, in `envOK`. -/
def wOpen : ContinuousVideoWriter :=
  (start_new_file envOK 0 initWriter).getD initWriter

/-- A writer with an open session whose sink could not be opened
(`envBad`). -/
def wBad : ContinuousVideoWriter :=
  (start_new_file envBad 0 initWriter).getD initWriter

/-- The sink of `wOpen`. -/
def sk0 : Sink := { opened := true, frames := [] }

/-- The sink of `wBad`. -/
def skBad : Sink := { opened := false, frames := [] }

/-- Evaluation rule for the rotation predicate on an open session,
negative case. -/
theorem should_rotate_file_eq_false (now t0 : ℚ) (s : ContinuousVideoWriter)
    (h : s.file_start_time = some t0)
    (hlt : ¬ (now - t0) / 3600 ≥ s.max_file_duration_hours) :
    should_rotate_file now s = false := by
  unfold should_rotate_file
  rw [h]
  show (if (now - t0) / 3600 ≥ s.max_file_duration_hours then true else false) = false
  rw [if_neg hlt]

/-- Evaluation rule for the rotation predicate on an open session,
positive case. -/
theorem should_rotate_file_eq_true (now t0 : ℚ) (s : ContinuousVideoWriter)
    (h : s.file_start_time = some t0)
    (hge : (now - t0) / 3600 ≥ s.max_file_duration_hours) :
    should_rotate_file now s = true := by
  unfold should_rotate_file
  rw [h]
  show (if (now - t0) / 3600 ≥ s.max_file_duration_hours then true else false) = true
  rw [if_pos hge]

/-- At the instant the session of `wOpen` started, no rotation is
due. -/
theorem rot_wOpen_false : should_rotate_file 0 wOpen = false :=
  should_rotate_file_eq_false 0 0 wOpen rfl
    (by show ¬ ((0 : ℚ) - 0) / 3600 ≥ 1; norm_num)

/-- Two hours after the session of `wOpen` started, rotation is due
(the maximum duration is one hour). -/
theorem rot_wOpen_true : should_rotate_file 7200 wOpen = true :=
  should_rotate_file_eq_true 7200 0 wOpen rfl
    (by show ((7200 : ℚ) - 0) / 3600 ≥ 1; norm_num)

/-- At the instant the session of `wBad` started, no rotation is
due. -/
theorem rot_wBad_false : should_rotate_file 0 wBad = false :=
  should_rotate_file_eq_false 0 0 wBad rfl
    (by show ¬ ((0 : ℚ) - 0) / 3600 ≥ 1; norm_num)

/-! Helper definitions for stating and proving the loop lemmas. -/

/-- Inputs on which the detector succeeds, given as (frame, detections)
pairs. -/
def ok_inputs (ps : List (Frame × List Det)) : List FrameInput :=
  ps.map fun p => { frame := p.1, det := Except.ok p.2 }

/-- An input on which the detector raises. -/
def err_input (f : Frame) (msg : String) : FrameInput :=
  { frame := f, det := Except.error msg }

/-- The frame that reaches the sink for an input frame with its
detections: all detections drawn, then normalized to the writer's
frame size. -/
def annot_norm (LS : String → Int × Int) (size : Nat × Nat)
    (p : Frame × List Det) : Frame :=
  normalize_frame size (p.2.foldl (draw_detection LS) p.1)

/-- The detection records the loop appends for a list of
detector-successful frames, when the frame counter starts at `c`:
one record per detection for each frame whose 1-based index is
divisible by 30, in order. -/
def sampled_records (now : ℚ) : Nat → List (Frame × List Det) → List DetRecord
  | _, [] => []
  | c, p :: ps =>
      (if (c + 1) % 30 == 0 then p.2.map (mk_record now (c + 1)) else [])
        ++ sampled_records now (c + 1) ps

/-- `should_rotate_file` reads only `file_start_time` and
`max_file_duration_hours`. -/
theorem should_rotate_file_congr (now : ℚ) (s t : ContinuousVideoWriter)
    (h1 : s.file_start_time = t.file_start_time)
    (h2 : s.max_file_duration_hours = t.max_file_duration_hours) :
    should_rotate_file now s = should_rotate_file now t := by
  unfold should_rotate_file
  rw [h1, h2]

/-- `should_rotate_file` is unaffected by updating the sink handle and
the frame counter. -/
theorem should_rotate_file_wupdate (now : ℚ) (vw : ContinuousVideoWriter)
    (w' : Option Sink) (fc : Nat) :
    should_rotate_file now { vw with writer := w', frame_count := fc }
      = should_rotate_file now vw :=
  should_rotate_file_congr now _ vw rfl rfl

/-- Characterization of a completing `write_frame`: with the lock
free, a session open and the rotation predicate false, the call
appends the normalized frame to an opened sink (and silently drops it
on an unopened one) and increments `frame_count`; nothing else
changes. -/
theorem write_frame_eq_some (env : String → Bool) (now : ℚ)
    (s : ContinuousVideoWriter) (sk : Sink) (f : Frame)
    (hl : s.lock_held = false) (hw : s.writer = some sk)
    (hr : should_rotate_file now s = false) :
    write_frame env now s f
      = some { s with
          writer := some { sk with
            frames := if sk.opened then
                sk.frames ++ [normalize_frame s.frame_size f]
              else sk.frames },
          frame_count := s.frame_count + 1 } := by
  have hr' : should_rotate_file now { s with lock_held := true } = false := by
    rw [should_rotate_file_congr now { s with lock_held := true } s rfl rfl]
    exact hr
  cases s with
  | mk od w cf lh fps fs mx st0 fc =>
      simp only at hl hw
      subst hl hw
      simp [write_frame, lockAcquire, lockRelease, hr']

/-- `write_frame` deadlocks whenever the lock is free but no session
is open or the rotation predicate holds: `start_new_file` re-acquires
the already-held non-reentrant lock. -/
theorem write_frame_eq_none (env : String → Bool) (now : ℚ)
    (s : ContinuousVideoWriter) (f : Frame)
    (hl : s.lock_held = false)
    (h : s.writer = none ∨ should_rotate_file now s = true) :
    write_frame env now s f = none := by
  cases s with
  | mk od w cf lh fps fs mx st0 fc =>
      simp only at hl
      subst hl
      have hrot : should_rotate_file now
          (ContinuousVideoWriter.mk od w cf true fps fs mx st0 fc)
          = should_rotate_file now
          (ContinuousVideoWriter.mk od w cf false fps fs mx st0 fc) :=
        should_rotate_file_congr now _ _ rfl rfl
      rcases h with h | h
      · simp only at h
        subst h
        simp [write_frame, lockAcquire, start_new_file]
      · simp [write_frame, lockAcquire, start_new_file, hrot, h]

/-- Inversion of a completing `write_frame`: success forces a free
lock, an open session and a false rotation predicate, and determines
the result state. -/
theorem write_frame_some_inv (env : String → Bool) (now : ℚ)
    (s s' : ContinuousVideoWriter) (f : Frame)
    (h : write_frame env now s f = some s') :
    s.lock_held = false ∧ ∃ sk, s.writer = some sk
      ∧ should_rotate_file now s = false
      ∧ s' = { s with
          writer := some { sk with
            frames := if sk.opened then
                sk.frames ++ [normalize_frame s.frame_size f]
              else sk.frames },
          frame_count := s.frame_count + 1 } := by
  have hl : s.lock_held = false := by
    by_contra hc
    rw [Bool.not_eq_false] at hc
    rw [write_frame] at h
    rw [lockAcquire, if_pos hc] at h
    exact Option.noConfusion h
  refine ⟨hl, ?_⟩
  cases hw : s.writer with
  | none =>
      rw [write_frame_eq_none env now s f hl (Or.inl hw)] at h
      exact Option.noConfusion h
  | some sk =>
      cases hr : should_rotate_file now s with
      | true =>
          rw [write_frame_eq_none env now s f hl (Or.inr hr)] at h
          exact Option.noConfusion h
      | false =>
          refine ⟨sk, rfl, rfl, ?_⟩
          rw [write_frame_eq_some env now s sk f hl hw hr] at h
          exact (Option.some.injEq _ _).mp h.symm

/-- Unrolling of the per-frame box loop: it draws every detection onto
the frame and appends one record per detection exactly when the frame
counter is divisible by 30. -/
theorem process_boxes_eq (LS : String → Int × Int) (now : ℚ) (cnt : Nat)
    (f : Frame) (ds : List Det) (recs : List DetRecord) :
    process_boxes LS now cnt f ds recs
      = (ds.foldl (draw_detection LS) f,
         recs ++ if cnt % 30 == 0 then ds.map (mk_record now cnt) else []) := by
  induction ds generalizing f recs with
  | nil => simp [process_boxes]
  | cons d ds ih =>
      rw [process_boxes, ih]
      cases h : cnt % 30 == 0 with
      | false => simp [h]
      | true => simp [h]

/-- Full unrolling of the upload loop on detector-successful frames
against a writer with a free lock, an open session on an opened sink
and a false rotation predicate: the loop completes normally, the sink
receives the annotated and normalized frames in order, the writer's
global `frame_count` grows by the number of frames, and the response
accumulates exactly the sampled records. -/
theorem upload_loop_ok (LS : String → Int × Int) (env : String → Bool)
    (now : ℚ) (ps : List (Frame × List Det)) (vw : ContinuousVideoWriter)
    (sk : Sink) (c : Nat) (recs : List DetRecord)
    (hl : vw.lock_held = false) (hw : vw.writer = some sk)
    (hop : sk.opened = true) (hr : should_rotate_file now vw = false) :
    upload_loop LS env now (ok_inputs ps)
        { vw := vw, frame_count := c, detections := recs }
      = some (LoopResult.ok
          { vw := { vw with
              writer := some { sk with
                frames := sk.frames ++ ps.map (annot_norm LS vw.frame_size) },
              frame_count := vw.frame_count + ps.length },
            frame_count := c + ps.length,
            detections := recs ++ sampled_records now c ps }) := by
  induction ps generalizing vw sk c recs with
  | nil =>
      rw [show ok_inputs [] = [] from rfl, upload_loop, sampled_records]
      cases vw with
      | mk od w cf lh fps fs mx st0 fc =>
          simp only at hw
          subst hw
          simp
  | cons p ps ih =>
      rw [show ok_inputs (p :: ps)
            = { frame := p.1, det := Except.ok p.2 } :: ok_inputs ps from rfl]
      rw [upload_loop]
      simp only [process_boxes_eq]
      rw [write_frame_eq_some env now vw sk _ hl hw hr, hop]
      simp only [if_true]
      rw [ih { vw with
            writer := some ⟨true, sk.frames
              ++ [normalize_frame vw.frame_size (p.2.foldl (draw_detection LS) p.1)]⟩,
            frame_count := vw.frame_count + 1 }
          ⟨true, sk.frames
            ++ [normalize_frame vw.frame_size (p.2.foldl (draw_detection LS) p.1)]⟩
          (c + 1) _ hl rfl rfl
          ((should_rotate_file_wupdate now vw _ _).trans hr)]
      rw [sampled_records]
      simp [annot_norm, List.append_assoc, Nat.add_assoc, Nat.add_comm 1 ps.length]

/-- Full unrolling of the upload loop when the detector raises on the
frame right after `pre`: the loop aborts there with the detector's
message, the sink has received exactly the annotated `pre` frames, and
nothing at or after the failing frame is ever written. -/
theorem upload_loop_err (LS : String → Int × Int) (env : String → Bool)
    (now : ℚ) (pre : List (Frame × List Det)) (ef : Frame) (msg : String)
    (post : List FrameInput) (vw : ContinuousVideoWriter) (sk : Sink)
    (c : Nat) (recs : List DetRecord)
    (hl : vw.lock_held = false) (hw : vw.writer = some sk)
    (hop : sk.opened = true) (hr : should_rotate_file now vw = false) :
    upload_loop LS env now (ok_inputs pre ++ err_input ef msg :: post)
        { vw := vw, frame_count := c, detections := recs }
      = some (LoopResult.detectorError msg
          { vw := { vw with
              writer := some { sk with
                frames := sk.frames ++ pre.map (annot_norm LS vw.frame_size) },
              frame_count := vw.frame_count + pre.length },
            frame_count := c + pre.length + 1,
            detections := recs ++ sampled_records now c pre }) := by
  induction pre generalizing vw sk c recs with
  | nil =>
      rw [show ok_inputs [] ++ err_input ef msg :: post
            = err_input ef msg :: post from rfl, upload_loop, sampled_records]
      cases vw with
      | mk od w cf lh fps fs mx st0 fc =>
          simp only at hw
          subst hw
          simp [err_input]
  | cons p pre ih =>
      rw [show ok_inputs (p :: pre) ++ err_input ef msg :: post
            = { frame := p.1, det := Except.ok p.2 }
                :: (ok_inputs pre ++ err_input ef msg :: post) from rfl]
      rw [upload_loop]
      simp only [process_boxes_eq]
      rw [write_frame_eq_some env now vw sk _ hl hw hr, hop]
      simp only [if_true]
      rw [ih { vw with
            writer := some ⟨true, sk.frames
              ++ [normalize_frame vw.frame_size (p.2.foldl (draw_detection LS) p.1)]⟩,
            frame_count := vw.frame_count + 1 }
          ⟨true, sk.frames
            ++ [normalize_frame vw.frame_size (p.2.foldl (draw_detection LS) p.1)]⟩
          (c + 1) _ hl rfl rfl
          ((should_rotate_file_wupdate now vw _ _).trans hr)]
      rw [sampled_records]
      simp [annot_norm, List.append_assoc, Nat.add_assoc, Nat.add_comm 1 pre.length]

/-- Every record the loop samples names a frame index divisible by
30. -/
theorem sampled_records_frame_mod (now : ℚ) (c : Nat)
    (ps : List (Frame × List Det)) (r : DetRecord)
    (h : r ∈ sampled_records now c ps) : r.frame % 30 = 0 := by
  induction ps generalizing c with
  | nil => simp [sampled_records] at h
  | cons p ps ih =>
      rw [sampled_records] at h
      rcases List.mem_append.mp h with h | h
      · by_cases hc : (c + 1) % 30 == 0
        · rw [if_pos hc] at h
          rcases List.mem_map.mp h with ⟨d, _, hd⟩
          subst hd
          simpa [mk_record] using eq_of_beq hc
        · rw [if_neg hc] at h
          simp at h
      · exact ih (c + 1) h

/-! Claim theorems. -/

/-- Claim C1 (code bug): the claim says every `write_frame` call
terminates and appends one frame, opening a new session first when
none is open.  The code deadlocks instead: on the very first call
(fresh writer, no open session) `write_frame` holds the non-reentrant
`self.lock` and calls `start_new_file`, which blocks forever acquiring
the same lock; no state is ever produced and no frame is ever
appended. -/
theorem write_frame_first_call_deadlocks :
    write_frame envOK 0 initWriter f0 = none := by
  decide

/-- Claim C4 (code bug): the claim says `frame_count` resets to 0
exactly when a new session begins, on rotation or first write.  In the
code the reset lives in `start_new_file`, but a `write_frame` call for
which the rotation predicate holds (here: session opened at instant 0,
written to at instant 7200 with a 1-hour maximum) deadlocks in the
nested acquisition of the non-reentrant lock, so the rotation-path
reset never happens: no state is produced at all. -/
theorem write_frame_rotation_deadlocks :
    should_rotate_file 7200 wOpen = true
    ∧ write_frame envOK 7200 wOpen f0 = none :=
  ⟨rot_wOpen_true,
   write_frame_eq_none envOK 7200 wOpen f0 rfl (Or.inr rot_wOpen_true)⟩

/-- Claim C2 counterexample: media bytes that cannot be opened as a
video container do not produce a 400.  `cv2.VideoCapture` raises
nothing on an unreadable container and `read()` yields no frames, so
the endpoint returns 200 with a zero-frame success result. -/
theorem upload_unreadable_media_returns_200 :
    upload_video LS0 envOK 0 (some Media.unreadable) "cam" "1" initWriter
      = some (UploadResponse.ok
          { camera_id := "cam", sequence := "1", processed_frames := 0,
            detections := [], detection_count := 0 }, initWriter)
    ∧ status_of (UploadResponse.ok
          { camera_id := "cam", sequence := "1", processed_frames := 0,
            detections := [], detection_count := 0 }) = 200
    ∧ status_of (UploadResponse.ok
          { camera_id := "cam", sequence := "1", processed_frames := 0,
            detections := [], detection_count := 0 }) ≠ 400 := by
  refine ⟨rfl, rfl, ?_⟩
  decide

/-- Claim C2 (amended): a missing media field yields 400, but an
upload whose media bytes cannot be opened as a video container is not
rejected: no decode-failure path exists, the endpoint returns 200 with
zero processed frames and an empty detection list, for every writer
state. -/
theorem upload_media_field_and_decode_handling
    (LS : String → Int × Int) (env : String → Bool) (now : ℚ)
    (cid sq : String) (vw : ContinuousVideoWriter) :
    upload_video LS env now none cid sq vw
      = some (UploadResponse.clientError "No video file provided", vw)
    ∧ status_of (UploadResponse.clientError "No video file provided") = 400
    ∧ upload_video LS env now (some Media.unreadable) cid sq vw
      = some (UploadResponse.ok
          { camera_id := cid, sequence := sq, processed_frames := 0,
            detections := [], detection_count := 0 }, vw) := by
  exact ⟨rfl, rfl, rfl⟩

/-- Claim C3: if the detector raises on the frame right after the
`pre` prefix of an upload (against a writer with a free lock, an open
session on an opened sink and no rotation due), the request returns a
500 error, the sink keeps exactly the annotated `pre` frames already
forwarded, and no frame at or after the failure point is ever
written. -/
theorem upload_detector_error_writes_prefix_only
    (LS : String → Int × Int) (env : String → Bool) (now : ℚ)
    (cid sq msg : String) (pre : List (Frame × List Det)) (ef : Frame)
    (post : List FrameInput) (vw : ContinuousVideoWriter) (sk : Sink)
    (hl : vw.lock_held = false) (hw : vw.writer = some sk)
    (hop : sk.opened = true) (hr : should_rotate_file now vw = false) :
    upload_video LS env now
        (some (Media.readable (ok_inputs pre ++ err_input ef msg :: post)))
        cid sq vw
      = some (UploadResponse.serverError msg,
          { vw with
              writer := some { sk with
                frames := sk.frames ++ pre.map (annot_norm LS vw.frame_size) },
              frame_count := vw.frame_count + pre.length })
    ∧ status_of (UploadResponse.serverError msg) = 500 := by
  refine ⟨?_, rfl⟩
  simp only [upload_video, decode_frames]
  rw [upload_loop_err LS env now pre ef msg post vw sk 0 [] hl hw hop hr]

/-- Claim C3 witness: a 3-frame upload whose detector raises on frame
2, against the freshly opened session `wOpen`: the response is the 500
error and exactly one frame (annotated frame 1) has been written;
frames 2 and 3 never reach the sink. -/
theorem upload_detector_error_writes_prefix_only_witness :
    upload_video LS0 envOK 0
        (some (Media.readable
          (ok_inputs [(f0, [d0])] ++ err_input f0 "boom" :: [err_input f0 "later"])))
        "cam" "1" wOpen
      = some (UploadResponse.serverError "boom",
          { wOpen with
              writer := some { sk0 with
                frames := sk0.frames
                  ++ [(f0, [d0])].map (annot_norm LS0 wOpen.frame_size) },
              frame_count := wOpen.frame_count + [(f0, [d0])].length })
    ∧ (written_frames
        { wOpen with
            writer := some { sk0 with
              frames := sk0.frames
                ++ [(f0, [d0])].map (annot_norm LS0 wOpen.frame_size) },
            frame_count := wOpen.frame_count + [(f0, [d0])].length }).length = 1 := by
  refine ⟨(upload_detector_error_writes_prefix_only LS0 envOK 0 "cam" "1" "boom"
    [(f0, [d0])] f0 [err_input f0 "later"] wOpen sk0
    rfl rfl rfl rot_wOpen_false).1, ?_⟩
  rfl

/-- Claim C5: for every upload on which the detector succeeds
(against a writer with a free lock, an open session on an opened sink
and no rotation due), the response's detection list is exactly
`sampled_records`: one record per detection for each frame whose
1-based index is divisible by 30; and every recorded frame index is
divisible by 30. -/
theorem upload_sampling_every_30th
    (LS : String → Int × Int) (env : String → Bool) (now : ℚ)
    (cid sq : String) (ps : List (Frame × List Det))
    (vw : ContinuousVideoWriter) (sk : Sink)
    (hl : vw.lock_held = false) (hw : vw.writer = some sk)
    (hop : sk.opened = true) (hr : should_rotate_file now vw = false) :
    upload_video LS env now (some (Media.readable (ok_inputs ps))) cid sq vw
      = some (UploadResponse.ok
          { camera_id := cid, sequence := sq, processed_frames := ps.length,
            detections := sampled_records now 0 ps,
            detection_count := (sampled_records now 0 ps).length },
          { vw with
              writer := some { sk with
                frames := sk.frames ++ ps.map (annot_norm LS vw.frame_size) },
              frame_count := vw.frame_count + ps.length })
    ∧ ∀ r ∈ sampled_records now 0 ps, r.frame % 30 = 0 := by
  constructor
  · simp only [upload_video, decode_frames]
    rw [upload_loop_ok LS env now ps vw sk 0 [] hl hw hop hr]
    simp
  · intro r hmem
    exact sampled_records_frame_mod now 0 ps r hmem

/-- The 90-frame video of the claim C5 scenario: one detection on
every frame. -/
def ps90 : List (Frame × List Det) := List.replicate 90 (f0, [d0])

/-- Claim C5 witness: for the 90-frame video with a detection on every
frame, uploaded against the freshly opened session `wOpen`, the
response's detection list has entries from exactly the frames 30, 60
and 90. -/
theorem upload_sampling_every_30th_witness :
    upload_video LS0 envOK 0 (some (Media.readable (ok_inputs ps90))) "cam" "7" wOpen
      = some (UploadResponse.ok
          { camera_id := "cam", sequence := "7", processed_frames := ps90.length,
            detections := sampled_records 0 0 ps90,
            detection_count := (sampled_records 0 0 ps90).length },
          { wOpen with
              writer := some { sk0 with
                frames := sk0.frames ++ ps90.map (annot_norm LS0 wOpen.frame_size) },
              frame_count := wOpen.frame_count + ps90.length })
    ∧ (sampled_records 0 0 ps90).map DetRecord.frame = [30, 60, 90]
    ∧ ps90.length = 90 := by
  refine ⟨(upload_sampling_every_30th LS0 envOK 0 "cam" "7" ps90 wOpen sk0
    rfl rfl rfl rot_wOpen_false).1, ?_, ?_⟩
  · rfl
  · rfl

/-- Claim C6: whenever `write_frame` completes against a writer whose
target geometry is 640x480, only the normalized frame can have been
appended: the appended frame has exactly the target dimensions, and a
frame of mismatched dimensions is the result of `cv2.resize` to the
target, never the original. -/
theorem write_frame_appends_only_normalized
    (env : String → Bool) (now : ℚ) (s s' : ContinuousVideoWriter) (f : Frame)
    (hsz : s.frame_size = (640, 480))
    (h : write_frame env now s f = some s') :
    ((normalize_frame (640, 480) f).width,
     (normalize_frame (640, 480) f).height) = (640, 480)
    ∧ (written_frames s' = written_frames s
       ∨ written_frames s' = written_frames s ++ [normalize_frame (640, 480) f])
    ∧ ((f.width, f.height) ≠ (640, 480) →
        normalize_frame (640, 480) f = resize f (640, 480)) := by
  refine ⟨?_, ?_, ?_⟩
  · by_cases hf : (f.width, f.height) = (640, 480)
    · rw [normalize_frame, if_neg (by simp [hf])]
      exact hf
    · rw [normalize_frame, if_pos hf]
      rfl
  · obtain ⟨hl, sk, hw, hr, hs'⟩ := write_frame_some_inv env now s s' f h
    subst hs'
    cases hop : sk.opened with
    | false => left; simp [written_frames, hw, hop]
    | true => right; simp [written_frames, hw, hop, hsz]
  · intro hf
    rw [normalize_frame, if_pos hf]

/-- The writer state after the claim C6 witness write. -/
def wAfterSmall : ContinuousVideoWriter :=
  { wOpen with
      writer := some { sk0 with
        frames := if sk0.opened then
            sk0.frames ++ [normalize_frame wOpen.frame_size fSmall]
          else sk0.frames },
      frame_count := wOpen.frame_count + 1 }

/-- Claim C6 witness: writing the 100x120 frame `fSmall` through the
open session of `wOpen` appends only its 640x480 resize. -/
theorem write_frame_appends_only_normalized_witness :
    ((normalize_frame (640, 480) fSmall).width,
     (normalize_frame (640, 480) fSmall).height) = (640, 480)
    ∧ (written_frames wAfterSmall = written_frames wOpen
       ∨ written_frames wAfterSmall
          = written_frames wOpen ++ [normalize_frame (640, 480) fSmall])
    ∧ ((fSmall.width, fSmall.height) ≠ (640, 480) →
        normalize_frame (640, 480) fSmall = resize fSmall (640, 480)) :=
  write_frame_appends_only_normalized envOK 0 wOpen wAfterSmall fSmall rfl
    (write_frame_eq_some envOK 0 wOpen sk0 fSmall rfl rfl rot_wOpen_false)

/-- Claim C7 counterexample: for the degenerate detection `dBad` (x1 >
x2 and y1 > y2), the first primitive the annotation code draws is the
rectangle at the raw truncated coordinates (10, 7)-(5, 2), whose
corners are not ordered — so the claim that bbox coordinates are
clamped before drawing is false. -/
theorem draw_detection_degenerate_not_clamped :
    dBad.x1 > dBad.x2 ∧ dBad.y1 > dBad.y2
    ∧ (draw_detection LS0 f0 dBad).ops.head?
        = some (DrawOp.rect 10 7 5 2 false)
    ∧ ¬ ((10 : Int) ≤ 5 ∧ (7 : Int) ≤ 2) := by
  refine ⟨?_, ?_, ?_, by norm_num⟩
  · norm_num [dBad]
  · norm_num [dBad]
  · have h10 : truncInt dBad.x1 = 10 := by norm_num [truncInt, dBad]
    have h7 : truncInt dBad.y1 = 7 := by norm_num [truncInt, dBad]
    have h5 : truncInt dBad.x2 = 5 := by norm_num [truncInt, dBad]
    have h2 : truncInt dBad.y2 = 2 := by norm_num [truncInt, dBad]
    simp [draw_detection, f0, h10, h7, h5, h2]

/-- Claim C7 (amended): annotation never fails — it is total on every
detection, including degenerate boxes — but performs no clamping: the
truncated raw coordinates are passed unchanged to the drawing
primitives (`cv2.rectangle` accepts its two corners in any order). -/
theorem draw_detection_total_raw_coords
    (LS : String → Int × Int) (f : Frame) (d : Det) :
    draw_detection LS f d
      = { f with ops := f.ops ++
          [DrawOp.rect (truncInt d.x1) (truncInt d.y1)
             (truncInt d.x2) (truncInt d.y2) false,
           DrawOp.rect (truncInt d.x1)
             (truncInt d.y1 - (LS (det_label d)).2 - 10)
             (truncInt d.x1 + (LS (det_label d)).1) (truncInt d.y1) true,
           DrawOp.text (truncInt d.x1) (truncInt d.y1 - 5) (det_label d)] } :=
  rfl

/-- Claim C8 counterexample: with a session whose sink could not be
opened (`wBad`, environment `envBad`), a one-frame upload does not
fail with any IOFailure: the endpoint returns 200, `frame_count` is
incremented, and the frame is silently dropped — zero frames are
persisted and the unopened sink is kept, so nothing retries opening
either. -/
theorem upload_sink_failure_silent :
    skBad.opened = false
    ∧ upload_video LS0 envBad 0
        (some (Media.readable [{ frame := f0, det := Except.ok [] }]))
        "c" "0" wBad
      = some (UploadResponse.ok
          { camera_id := "c", sequence := "0", processed_frames := 1,
            detections := [], detection_count := 0 },
          { wBad with writer := some skBad, frame_count := 1 })
    ∧ written_frames { wBad with writer := some skBad, frame_count := 1 } = [] := by
  refine ⟨rfl, ?_, rfl⟩
  have hw1 : write_frame envBad 0 wBad f0
      = some { wBad with
          writer := some { skBad with
            frames := if skBad.opened then
                skBad.frames ++ [normalize_frame wBad.frame_size f0]
              else skBad.frames },
          frame_count := wBad.frame_count + 1 } :=
    write_frame_eq_some envBad 0 wBad skBad f0 rfl rfl rot_wBad_false
  simp only [upload_video, decode_frames, upload_loop, process_boxes]
  rw [hw1]
  rfl

/-- Claim C8 (amended): when the sink of the open session could not be
opened, `write_frame` does not fail and nothing propagates: the call
completes normally, `frame_count` still increments, the frame is
silently dropped, and the same unopened sink is kept (no reopening is
attempted before the rotation predicate fires). -/
theorem write_frame_sink_failure_is_silent
    (env : String → Bool) (now : ℚ) (s : ContinuousVideoWriter)
    (sk : Sink) (f : Frame)
    (hl : s.lock_held = false) (hw : s.writer = some sk)
    (hop : sk.opened = false) (hr : should_rotate_file now s = false) :
    write_frame env now s f
      = some { s with writer := some sk, frame_count := s.frame_count + 1 } := by
  rw [write_frame_eq_some env now s sk f hl hw hr]
  have hif : (if sk.opened = true then
      sk.frames ++ [normalize_frame s.frame_size f] else sk.frames) = sk.frames := by
    rw [hop]
    simp
  rw [hif]

/-- Claim C8 (amended) witness: the silent drop at the concrete
unopened-sink state `wBad`. -/
theorem write_frame_sink_failure_is_silent_witness :
    write_frame envBad 0 wBad f0
      = some { wBad with writer := some skBad,
                         frame_count := wBad.frame_count + 1 } :=
  write_frame_sink_failure_is_silent envBad 0 wBad skBad f0
    rfl rfl rfl rot_wBad_false

/-- Inversion of a completing `start_new_file`: the new current file
is the name computed from the output directory and the wall clock. -/
theorem start_new_file_some_inv (env : String → Bool) (t : ℚ)
    (s s' : ContinuousVideoWriter) (h : start_new_file env t s = some s') :
    s'.current_file = some (get_new_filename s.output_dir t) := by
  by_cases hl : s.lock_held
  · rw [start_new_file, lockAcquire, if_pos hl] at h
    exact Option.noConfusion h
  · rw [start_new_file, lockAcquire, if_neg hl] at h
    have h3 := Option.some.inj h
    rw [← h3]
    rfl

/-- Claim C9: the new file name of a session is determined solely by
the output directory and the floor-of-seconds of the wall clock — any
two completed `start_new_file` calls over the same output directory
within the same clock second produce identical `current_file` paths,
with no counter or other disambiguation. -/
theorem get_new_filename_second_resolution
    (env1 env2 : String → Bool) (t1 t2 : ℚ)
    (sA sB s1 s2 : ContinuousVideoWriter)
    (h1 : start_new_file env1 t1 sA = some s1)
    (h2 : start_new_file env2 t2 sB = some s2)
    (hdir : sA.output_dir = sB.output_dir) (hsec : ⌊t1⌋ = ⌊t2⌋) :
    s1.current_file = some (get_new_filename sA.output_dir t1)
    ∧ s2.current_file = some (get_new_filename sB.output_dir t2)
    ∧ s1.current_file = s2.current_file := by
  have c1 := start_new_file_some_inv env1 t1 sA s1 h1
  have c2 := start_new_file_some_inv env2 t2 sB s2 h2
  refine ⟨c1, c2, ?_⟩
  rw [c1, c2, hdir]
  unfold get_new_filename
  rw [hsec]

/-- The writer after a rotation at instant 5. -/
def w5 : ContinuousVideoWriter :=
  (start_new_file envOK 5 initWriter).getD initWriter

/-- The writer after a second rotation at instant 11/2, half a second
later but within the same clock second. -/
def w55 : ContinuousVideoWriter :=
  (start_new_file envOK (11 / 2) w5).getD initWriter

/-- Claim C9 witness: two rotations at instants 5 and 11/2 — half a
second apart, same clock second — produce identical file paths, so
the second session's output targets the very file of the first. -/
theorem get_new_filename_second_resolution_witness :
    w5.current_file = some (get_new_filename initWriter.output_dir 5)
    ∧ w55.current_file = some (get_new_filename w5.output_dir (11 / 2))
    ∧ w5.current_file = w55.current_file :=
  get_new_filename_second_resolution envOK envOK 5 (11 / 2)
    initWriter w5 w5 w55 rfl rfl rfl (by norm_num)

/-- Claim C10: `close` on a writer with an open session clears only
the writer handle: `current_file`, `file_start_time` and `frame_count`
are untouched, and a subsequent status query reports
`is_recording = false` while still returning the closed session's file
path, start time and final frame count. -/
theorem close_releases_only_writer_handle
    (s : ContinuousVideoWriter) (sk : Sink)
    (hl : s.lock_held = false) (hw : s.writer = some sk) :
    close s = some { s with writer := none }
    ∧ recording_status { s with writer := none }
      = some { current_file := s.current_file, frame_count := s.frame_count,
               start_time := s.file_start_time, is_recording := false } := by
  cases s with
  | mk od w cf lh fps fs mx st0 fc =>
      simp only at hl hw
      subst hl hw
      constructor
      · simp [close, lockAcquire, lockRelease]
      · simp [recording_status, lockAcquire]

/-- Claim C10 witness: closing the open session of `wOpen` leaves its
metadata in place and the status endpoint then reports not-recording
with the old file path, start time and frame count. -/
theorem close_releases_only_writer_handle_witness :
    close wOpen = some { wOpen with writer := none }
    ∧ recording_status { wOpen with writer := none }
      = some { current_file := wOpen.current_file,
               frame_count := wOpen.frame_count,
               start_time := wOpen.file_start_time, is_recording := false } :=
  close_releases_only_writer_handle wOpen sk0 rfl rfl

end Camera
